import Mathlib

/-!
# Verification of `odin.mapping` (mapping compiler and execution engine)

This file is a shallow embedding, in Lean 4, of the mapping compiler and
execution engine of the `odin` repository (`src/odin/mapping/__init__.py`),
together with theorems settling the frozen specification claims about it.

Python values are modelled by the inductive type `PyVal`; exceptions by
`PyErr` together with the `Except` monad; Python's mutable `dict` used as
the field-value accumulator by association lists with overwriting update.
The module-level registry (`odin.registration`, not part of the provided
sources) is modelled from the spec as an association list keyed by the
`(source type, destination type)` pair.
-/

namespace OdinMapping

/-- The exception kinds raised by the mapping engine
(`odin.exceptions.MappingSetupError`, `MappingExecutionError`, plus the
built-in Python exceptions the code raises or catches). -/
inductive PyErr : Type where
  | typeError (msg : String)
  | attributeError (msg : String)
  | mappingSetupError (msg : String)
  | mappingExecutionError (msg : String)
deriving Repr, DecidableEq

/-- Python values, as far as the mapping engine inspects them: `None`,
numbers, strings, lists, tuples, one-shot iterables (generators/iterators),
and objects carrying named attributes (resources and built destination
instances). -/
inductive PyVal : Type where
  | pyNone : PyVal
  | pyInt (n : Int) : PyVal
  | pyStr (s : String) : PyVal
  | pyList (xs : List PyVal) : PyVal
  | pyTuple (xs : List PyVal) : PyVal
  | pyIter (xs : List PyVal) : PyVal
  | pyObj (ty : String) (fields : List (String × PyVal)) : PyVal
deriving Repr

/-- A source instance: its concrete type name (`__class__`) and its
attribute dictionary. -/
structure PyObj : Type where
  typeName : String
  attrs : List (String × PyVal)
deriving Repr

/-- `getattr(obj, name)`: attribute lookup, raising `AttributeError` when
the attribute is absent. -/
def getattrE (o : PyObj) (f : String) : Except PyErr PyVal :=
  match o.attrs.lookup f with
  | some v => Except.ok v
  | none => Except.error (PyErr.attributeError f)

/-- `force_tuple = lambda x: x if isinstance(x, (list, tuple)) else (x,)`
(line 14 of `odin/mapping/__init__.py`). Note that a *list* is returned
unchanged, not wrapped. -/
def force_tuple (x : PyVal) : PyVal :=
  match x with
  | PyVal.pyList _ => x
  | PyVal.pyTuple _ => x
  | _ => PyVal.pyTuple [x]

/-- Python's `is None` identity test. -/
def isNone : PyVal → Bool
  | PyVal.pyNone => true
  | _ => false

/-- The elements produced by iterating a value
(`isinstance(x, collections.Iterable)` holds exactly when this is `some`):
lists, tuples, iterators and strings (character by character) are iterable;
`None`, numbers and plain objects are not. -/
def pyIterElems : PyVal → Option (List PyVal)
  | PyVal.pyList xs => some xs
  | PyVal.pyTuple xs => some xs
  | PyVal.pyIter xs => some xs
  | PyVal.pyStr s => some (s.data.map (fun c => PyVal.pyStr (String.singleton c)))
  | _ => none

/-- `len(x)` plus positional indexing, as used on `to_values`: defined for
lists, tuples and strings; anything else raises `TypeError` (a bare
iterator has no `len`). -/
def pyLenSeq : PyVal → Except PyErr (List PyVal)
  | PyVal.pyList xs => Except.ok xs
  | PyVal.pyTuple xs => Except.ok xs
  | PyVal.pyStr s => Except.ok (s.data.map (fun c => PyVal.pyStr (String.singleton c)))
  | _ => Except.error (PyErr.typeError "object has no len()")

/-- A Python callable used as a mapping action.  `arity` is the number of
positional parameters; calling with a different number of arguments raises
`TypeError`.  The body receives the current `_loop_idx` stack (actions can
reach it through the bound mapping instance's `context`) and the positional
arguments. -/
structure PyCallable : Type where
  arity : Nat
  fn : List Nat → List PyVal → Except PyErr PyVal

/-- The interpreter's message for a positional-argument count mismatch. -/
def arityErrMsg (expected got : Nat) : String :=
  "takes " ++ toString expected ++ " positional arguments but " ++
  toString got ++ " were given"

/-- Calling a Python callable: arity mismatch raises `TypeError`, otherwise
the body runs (and may itself raise). -/
def callPy (c : PyCallable) (loops : List Nat) (args : List PyVal) : Except PyErr PyVal :=
  if args.length = c.arity then c.fn loops args
  else Except.error (PyErr.typeError (arityErrMsg c.arity args.length))

/-- Tags for the composite-mapping helper actions created by
`_generate_auto_mapping`.  `MapListOf`, `MapDictAs` and `NoOpMapper` live in
`odin.mapping.helpers`, which is not among the provided sources; the tags
record which helper and which element-mapping key the compiler chose. -/
inductive HelperTag : Type where
  | mapListOfReg (fromEl toEl : String)
  | mapListOfNoOp
  | mapDictAsReg (fromEl toEl : String)
  | mapDictAsNoOp
deriving Repr, DecidableEq

/-- A Python value occurring in the `action` slot of a mapping rule:
`None`, a string naming a method on the mapping class, a callable, a
non-callable non-string value, or a composite helper instance. -/
inductive ActionV : Type where
  | vnone : ActionV
  | vstr (name : String) : ActionV
  | vfn (c : PyCallable) : ActionV
  | vnotCallable : ActionV
  | helperA (h : HelperTag) : ActionV

/-- `callable(x)` on action values: callables and helper instances are
callable; `None`, strings and other plain values are not. -/
def callableAV : ActionV → Bool
  | ActionV.vfn _ => true
  | ActionV.helperA _ => true
  | _ => false

/-- A canonical compiled mapping rule: the 6-tuple
`(map_from, action, map_to, to_list, bind, skip_if_none)` produced by
`attr_mapping_to_mapping_rule` (with `map_from`/`map_to` already forced to
tuples; `map_from = none` denotes an assignment rule). -/
structure CompiledRule : Type where
  map_from : Option (List String)
  action : ActionV
  map_to : List String
  to_list : Bool
  bind : Bool
  skip_if_none : Bool

/-- A printable rendering of a rule, used when execution errors interpolate
the offending rule into their message (`'... applying rule %s' % mapping_rule`). -/
def reprRule (r : CompiledRule) : String :=
  "(" ++ (match r.map_from with
          | none => "None"
          | some fs => String.intercalate ", " fs)
      ++ " -> " ++ String.intercalate ", " r.map_to ++ ")"

/-- A compiled mapping class, as produced by `MappingMeta.__new__`:
`from_obj` and `to_obj` type names, the compiled `_mapping_rules`, the
callable attributes of the class (for resolving string-named actions via
`getattr(self, action)`), and the `_subs` sub-mapping dispatch table keyed
by source type name. -/
inductive MappingCls : Type where
  | mk (from_obj to_obj : String) (rules : List CompiledRule)
       (methods : List (String × PyCallable)) (subs : List (String × MappingCls))

instance : Inhabited MappingCls := ⟨MappingCls.mk "" "" [] [] []⟩

def MappingCls.from_obj : MappingCls → String
  | MappingCls.mk f _ _ _ _ => f

def MappingCls.to_obj : MappingCls → String
  | MappingCls.mk _ t _ _ _ => t

def MappingCls.rules : MappingCls → List CompiledRule
  | MappingCls.mk _ _ rs _ _ => rs

def MappingCls.methods : MappingCls → List (String × PyCallable)
  | MappingCls.mk _ _ _ ms _ => ms

def MappingCls.subs : MappingCls → List (String × MappingCls)
  | MappingCls.mk _ _ _ _ ss => ss

/-- Replace the `_subs` table of a mapping class (used to model the
mutation `parent._subs[from_obj] = mapper`). -/
def MappingCls.withSubs : MappingCls → List (String × MappingCls) → MappingCls
  | MappingCls.mk f t rs ms _, ss => MappingCls.mk f t rs ms ss

/-- The opaque value passed as first positional argument to an action when
`bind` is set (the mapping instance itself). -/
def selfVal (cls : MappingCls) : PyVal :=
  PyVal.pyObj ("mapping instance of " ++ cls.from_obj) []

/-- Dictionary update `d[k] = v`: overwrite the existing entry for `k`, or
append a new one. -/
def dictSet : List (String × PyVal) → String → PyVal → List (String × PyVal)
  | [], k, v => [(k, v)]
  | (k', v') :: t, k, v =>
      if k' = k then (k, v) :: t else (k', v') :: dictSet t k v

/-- Dictionary lookup `d.get(k)`. -/
def dictGet (d : List (String × PyVal)) (k : String) : Option PyVal :=
  d.lookup k

/-- Lines 359-363 of `_apply_rule`: gather `from_values` — the empty tuple
for an assignment rule, otherwise `tuple(getattr(self.source, f) for f in
from_fields)` (an `AttributeError` propagates uncaught). -/
def ruleFromValues (source : PyObj) (rule : CompiledRule) : Except PyErr (List PyVal) :=
  match rule.map_from with
  | none => Except.ok []
  | some fs => fs.mapM (getattrE source)

/-- The `'%s applying rule %s'` message of line 377: the caught exception
text followed by the offending rule. -/
def execRuleMsg (m : String) (rule : CompiledRule) : String :=
  m ++ " applying rule " ++ reprRule rule

/-- The message wrapper of lines 376-377: a `TypeError` from the action
call is re-raised as `MappingExecutionError` naming the offending rule. -/
def execWrap (rule : CompiledRule) (r : Except PyErr PyVal) : Except PyErr PyVal :=
  match r with
  | Except.error (PyErr.typeError m) =>
      Except.error (PyErr.mappingExecutionError (execRuleMsg m rule))
  | other => other

/-- Lines 365-377 of `_apply_rule`: compute the raw `to_values`.  `None`
action yields the `from_values` tuple (identity); a string action is first
resolved with `getattr(self, action)` (outside the `try`, so a missing
method raises `AttributeError` unwrapped); the call itself is wrapped by
`execWrap`; `bind` prefixes the mapping instance to the arguments.
Composite helper actions (`MapListOf`/`MapDictAs`, from
`odin.mapping.helpers`, which is not among the provided sources) are left
unmodelled; no claim executes them. -/
def ruleActionValue (cls : MappingCls) (source : PyObj) (loops : List Nat)
    (rule : CompiledRule) : Except PyErr PyVal := do
  let from_values ← ruleFromValues source rule
  match rule.action with
  | ActionV.vnone => Except.ok (PyVal.pyTuple from_values)
  | ActionV.vstr name =>
      match cls.methods.lookup name with
      | none => Except.error (PyErr.attributeError name)
      | some c =>
          -- a bound method: `self` is already bound, so only `bind` adds it
          execWrap rule (callPy c loops
            (if rule.bind then selfVal cls :: from_values else from_values))
  | ActionV.vfn c =>
      execWrap rule (callPy c loops
        (if rule.bind then selfVal cls :: from_values else from_values))
  | ActionV.vnotCallable =>
      execWrap rule (Except.error (PyErr.typeError "object is not callable"))
  | ActionV.helperA _ =>
      execWrap rule (Except.error (PyErr.typeError "helper action not modelled"))

/-- Lines 379-383 of `_apply_rule`: normalise `to_values` into the value
sequence checked against `to_fields`.  With `to_list`, an iterable result is
materialised as `(list(result),)`; a non-iterable result reaches `len()`
unchanged.  Without `to_list`, the result goes through `force_tuple`. -/
def ruleToValues (cls : MappingCls) (source : PyObj) (loops : List Nat)
    (rule : CompiledRule) : Except PyErr (List PyVal) := do
  let v ← ruleActionValue cls source loops rule
  if rule.to_list then
    match pyIterElems v with
    | some xs => Except.ok [PyVal.pyList xs]
    | none => pyLenSeq v
  else
    pyLenSeq (force_tuple v)

/-- `MappingBase._apply_rule` (lines 355-392): compute the value sequence,
check its length against `to_fields` (mismatch raises
`MappingExecutionError` naming the rule), and produce the destination
field/value pairs, dropping `None`-valued pairs when `skip_if_none`. -/
def countErrMsg (rule : CompiledRule) (got : Nat) : String :=
  "Rule expects " ++ toString rule.map_to.length ++ " fields (" ++
  toString got ++ " received) applying rule " ++ reprRule rule

def applyRule (cls : MappingCls) (source : PyObj) (loops : List Nat)
    (rule : CompiledRule) : Except PyErr (List (String × PyVal)) := do
  let to_values ← ruleToValues cls source loops rule
  if rule.map_to.length = to_values.length then
    let pairs := rule.map_to.zip to_values
    Except.ok (if rule.skip_if_none then pairs.filter (fun p => !isNone p.2) else pairs)
  else
    Except.error (PyErr.mappingExecutionError (countErrMsg rule to_values.length))

/-- `MappingBase.convert` (lines 401-413): fold every rule's field/value
pairs into the accumulator with dict-update semantics (later rules
overwrite earlier ones for the same destination field), then build the
destination instance via the default `create_object`, i.e.
`to_obj(**field_values)`. -/
def convert (cls : MappingCls) (source : PyObj) (loops : List Nat)
    (init : List (String × PyVal)) : Except PyErr PyVal := do
  let values ← cls.rules.foldlM (fun acc r => do
      let frag ← applyRule cls source loops r
      Except.ok (frag.foldl (fun a p => dictSet a p.1 p.2) acc)) init
  Except.ok (PyVal.pyObj cls.to_obj values)

/-- The single-instance branches of `MappingBase.apply` (lines 310-318):
an instance of exactly `from_obj` is converted with this class's rules; any
other type is dispatched through `_subs`, and a type with no registered
sub-mapping raises `TypeError`. -/
def msgNotInstance (cls : MappingCls) : String :=
  "`source_resource` parameter must be an instance (or subclass instance) of "
  ++ cls.from_obj

def applyLeaf (cls : MappingCls) (source : PyObj) (loops : List Nat) : Except PyErr PyVal :=
  if source.typeName = cls.from_obj then
    convert cls source loops []
  else
    match cls.subs.lookup source.typeName with
    | some sub => convert sub source loops []
    | none => Except.error (PyErr.typeError (msgNotInstance cls))

/-- The `loop_idx` property (lines 332-339): `loops[0] if loops else None`
— the *first* entry of the `_loop_idx` list, i.e. the slot pushed by the
outermost active loop. -/
def loop_idx (loops : List Nat) : Option Nat :=
  loops.head?

/-- The `loop_level` property (lines 341-346): `len(_loop_idx)`. -/
def loop_level (loops : List Nat) : Nat :=
  loops.length

/-- The `in_loop` property (lines 348-353): `bool(_loop_idx)`. -/
def in_loop (loops : List Nat) : Bool :=
  !loops.isEmpty

/-- The statement `context['_loop_idx'][0] += 1` executed after each
element of a sequence application: it increments the *first* entry of the
stack (the outermost loop's slot), not the most recently pushed one. -/
def bumpHead : List Nat → List Nat
  | [] => []
  | h :: t => (h + 1) :: t

/-- A source argument to `apply`: either a single instance or a
`list`/`tuple` of (possibly again nested) source arguments. -/
inductive SrcTree : Type where
  | leaf (s : PyObj) : SrcTree
  | node (xs : List SrcTree) : SrcTree

/-- The result of `apply` on a `SrcTree`, with the generator produced for a
sequence fully consumed depth-first. -/
inductive OutTree : Type where
  | leaf (v : PyVal) : OutTree
  | node (xs : List OutTree) : OutTree

mutual

/-- `MappingBase.apply` (lines 289-318) over a source tree, threading the
`_loop_idx` stack and assuming each yielded element is fully consumed
before the iteration advances.  For a sequence, `result_iter` appends a
fresh `0` slot, applies each element, runs `_loop_idx[0] += 1` after each,
and pops the last slot when the iteration completes; if an element raises,
the exception propagates to the consumer and the pop never runs, so the
stack is returned in its mid-iteration state. -/
def applyFull (cls : MappingCls) :
    SrcTree → List Nat → Except PyErr OutTree × List Nat
  | SrcTree.leaf s, loops =>
      (match applyLeaf cls s loops with
       | Except.ok v => Except.ok (OutTree.leaf v)
       | Except.error e => Except.error e, loops)
  | SrcTree.node xs, loops =>
      match applyFullList cls xs (loops ++ [0]) with
      | (Except.ok outs, loops') => (Except.ok (OutTree.node outs), loops'.dropLast)
      | (Except.error e, loops') => (Except.error e, loops')

/-- The `for s in sources` loop body of `result_iter` (lines 303-308). -/
def applyFullList (cls : MappingCls) :
    List SrcTree → List Nat → Except PyErr (List OutTree) × List Nat
  | [], loops => (Except.ok [], loops)
  | s :: rest, loops =>
      match applyFull cls s loops with
      | (Except.ok o, loops1) =>
          match applyFullList cls rest (bumpHead loops1) with
          | (Except.ok os, loops2) => (Except.ok (o :: os), loops2)
          | (Except.error e, loops2) => (Except.error e, loops2)
      | (Except.error e, loops1) => (Except.error e, loops1)

end

/-- The caller-visible part of the `context` dict: the `_loop_idx` entry
(if present) and whether the dict holds any other key (which decides its
truthiness under `context = context or {}`). -/
structure Ctx : Type where
  loopIdx : Option (List Nat)
  hasOtherKeys : Bool
deriving Repr, DecidableEq

/-- Python truthiness of the context dict: a dict is truthy iff non-empty. -/
def ctxTruthy (c : Ctx) : Bool :=
  c.loopIdx.isSome || c.hasOtherKeys

/-- The top of `MappingBase.apply` (lines 299-300) around a full
application: `context = context or {}` (a falsy — empty — caller dict is
*replaced* by a fresh one, so the caller's dict is left untouched), then
`context.setdefault('_loop_idx', [])`, then the application itself.
Returns the result together with the caller's dict as it stands after the
call. -/
def applyTop (cls : MappingCls) (src : SrcTree) (caller : Ctx) :
    Except PyErr OutTree × Ctx :=
  let working := if ctxTruthy caller then caller else Ctx.mk none false
  let loops0 := working.loopIdx.getD []
  let r := applyFull cls src loops0
  let workingAfter : Ctx := Ctx.mk (some r.2) working.hasOtherKeys
  (r.1, if ctxTruthy caller then workingAfter else caller)

/-! ## Mapping compilation (`MappingMeta.__new__` and its helpers) -/

/-- A field descriptor, as far as `_generate_auto_mapping` classifies it.
Modelled from the spec: `ListOf` and `DictAs` live in
`odin.fields.composite`, which is not among the provided sources; the spec
describes them as "is a list of nested-schema X" and "is a single
nested-schema X", with `of` naming the element schema type. -/
inductive FieldDesc : Type where
  | plain : FieldDesc
  | listOf (of : String) : FieldDesc
  | dictAs (of : String) : FieldDesc
deriving Repr, DecidableEq

/-- The two field maps a field resolver provides for a schema type
(`from_field_dict` and `to_field_dict`). -/
structure FieldMaps : Type where
  fromFields : List (String × FieldDesc)
  toFields : List (String × FieldDesc)

/-- The process-wide mapping registry.  Modelled from the spec:
`odin.registration` is not among the provided sources; per §4.4 it is a
table from the `(source_type, destination_type)` pair to the compiled
mapping definition, with `get_mapping` raising `KeyError` (here: `none`)
for an unknown pair and `register_mapping` inserting under the new pair. -/
def Registry : Type := List ((String × String) × MappingCls)

/-- `registration.get_mapping(from_obj, to_obj)`. -/
def regGet (reg : Registry) (f t : String) : Option MappingCls :=
  (List.lookup (f, t) reg)

/-- `registration.register_mapping(mapping)`: record the compiled class
under its `(from_obj, to_obj)` pair. -/
def regRegister (reg : Registry) (f t : String) (cls : MappingCls) : Registry :=
  ((f, t), cls) :: reg

/-- The mutation `parent._subs[from_obj] = mapper` (line 276), seen through
the registry: the entry registered for the parent pair gains a `_subs`
entry for the new source type. -/
def regAddSub (reg : Registry) (pf pt : String) (key : String) (sub : MappingCls) : Registry :=
  reg.map (fun e =>
    if e.1 = (pf, pt) then
      (e.1, e.2.withSubs ((key, sub) :: e.2.subs.filter (fun s => s.1 ≠ key)))
    else e)

/-- A `from_field`/`to_field` slot in a raw mapping declaration: a single
field name or a list of names (before `force_tuple`). -/
inductive FRef : Type where
  | one (s : String) : FRef
  | many (ss : List String) : FRef
deriving Repr, DecidableEq

/-- `force_tuple` on a field reference. -/
def forceTupleRef : FRef → List String
  | FRef.one s => [s]
  | FRef.many ss => ss

/-- A raw mapping declaration as written by the mapping author: the 6-tuple
produced by `define(...)`, the shorthand 3-tuple, or a value that unpacks
as neither (which `attr_mapping_to_mapping_rule` rejects as a bad mapping
definition). -/
inductive RawMapping : Type where
  | six (map_from : Option FRef) (action : ActionV) (map_to : FRef)
        (to_list bind skip_if_none : Bool) : RawMapping
  | three (map_from : Option FRef) (action : ActionV) (map_to : FRef) : RawMapping
  | badDecl : RawMapping

def msgBadMappingDef : String := "Bad mapping definition."
def msgFieldNotOnFrom (f : String) : String :=
  "Field `" ++ f ++ "` not found on from object."
def msgFieldNotOnTo (f : String) : String :=
  "Field `" ++ f ++ "` not found on to object."
def msgActionNotDefined (a : String) : String :=
  "Action named " ++ a ++ " was not defined on mapping object."
def msgActionNamedNotCallable (a : String) : String :=
  "Action named " ++ a ++ " is not callable."
def msgActionNotCallable : String := "Action is not callable."
def msgNoActionSupplied : String := "No action supplied."
def msgToListSingleTarget : String :=
  "A to_list mapping can only be applied to a single target field."
def msgFromObjUndefined : String := "`from_obj` is not defined."
def msgToObjUndefined : String := "`to_obj` is not defined."
def msgFromNoResolver : String :=
  "`from_obj` does not have an attribute resolver defined."
def msgToNoResolver : String :=
  "`to_obj` does not have an attribute resolver defined."
def msgParentFrom : String := "`from_obj` must be a subclass of `parent.from_obj`"
def msgParentTo : String := "`to_obj` must be a subclass of `parent.to_obj`"

/-- `attr_mapping_to_mapping_rule` (lines 172-216): parse, validate and
normalise one declared mapping rule.  `attrsDict` is the class attribute
dict used to validate string-named actions. -/
def attr_mapping_to_mapping_rule (attrsDict : List (String × ActionV))
    (from_names to_names : List String) (m : RawMapping) :
    Except PyErr CompiledRule := do
  let (map_fromRef, action, map_toRef, to_list, bind, skip_if_none) ←
    match m with
    | RawMapping.six a b c d e f => Except.ok (a, b, c, d, e, f)
    | RawMapping.three a b c => Except.ok (a, b, c, false, false, false)
    | RawMapping.badDecl => Except.error (PyErr.mappingSetupError msgBadMappingDef)
  let is_assignment := map_fromRef.isNone
  let map_from ←
    match map_fromRef with
    | none => Except.ok (none : Option (List String))
    | some fr =>
        let fs := forceTupleRef fr
        match fs.find? (fun f => !from_names.contains f) with
        | some f => Except.error (PyErr.mappingSetupError (msgFieldNotOnFrom f))
        | none => Except.ok (some fs)
  match action with
  | ActionV.vstr s =>
      match attrsDict.lookup s with
      | none => Except.error (PyErr.mappingSetupError (msgActionNotDefined s))
      | some v =>
          if callableAV v then Except.ok ()
          else Except.error (PyErr.mappingSetupError (msgActionNamedNotCallable s))
  | ActionV.vnone =>
      if is_assignment then Except.error (PyErr.mappingSetupError msgNoActionSupplied)
      else Except.ok ()
  | ActionV.vnotCallable => Except.error (PyErr.mappingSetupError msgActionNotCallable)
  | _ => Except.ok ()
  let map_to := forceTupleRef map_toRef
  if to_list && map_to.length ≠ 1 then
    Except.error (PyErr.mappingSetupError msgToListSingleTarget)
  else
    match map_to.find? (fun f => !to_names.contains f) with
    | some f => Except.error (PyErr.mappingSetupError (msgFieldNotOnTo f))
    | none => Except.ok ⟨map_from, action, map_to, to_list, bind, skip_if_none⟩

/-- `remove_from_unmapped_fields` (lines 222-226): a rule claims its
destination field only when it has exactly one; `list.remove` deletes the
first occurrence and is guarded by a membership test, which is exactly
`List.erase`. -/
def removeUnmapped (rule : CompiledRule) (unmapped : List String) : List String :=
  match rule.map_to with
  | [x] => unmapped.erase x
  | _ => unmapped

/-- Appending a rule to the accumulated rule list while removing its
claimed destination field from the unmapped working set. -/
def addRule (acc : List CompiledRule × List String) (r : CompiledRule) :
    List CompiledRule × List String :=
  (acc.1 ++ [r], removeUnmapped r acc.2)

/-- The cumulative effect of a rule list on the unmapped working set. -/
def removeAll (rs : List CompiledRule) (u : List String) : List String :=
  rs.foldl (fun acc r => removeUnmapped r acc) u

/-- `_generate_auto_mapping` (lines 97-127): for a field name present on
both sides, produce a composite rule when both descriptors are `ListOf`
(respectively `DictAs`) — using the registered element mapping when one
exists, a structural-clone no-op mapper when both sides name the identical
element type — and otherwise a plain identity rule. -/
def _generate_auto_mapping (reg : Registry)
    (from_fields to_fields : List (String × FieldDesc)) (name : String) :
    CompiledRule :=
  match from_fields.lookup name, to_fields.lookup name with
  | some (FieldDesc.listOf fo), some (FieldDesc.listOf t_o) =>
      if (regGet reg fo t_o).isSome then
        ⟨some [name], ActionV.helperA (HelperTag.mapListOfReg fo t_o), [name], true, true, false⟩
      else if fo = t_o then
        ⟨some [name], ActionV.helperA HelperTag.mapListOfNoOp, [name], true, true, false⟩
      else
        ⟨some [name], ActionV.vnone, [name], false, false, false⟩
  | some (FieldDesc.dictAs fo), some (FieldDesc.dictAs t_o) =>
      if (regGet reg fo t_o).isSome then
        ⟨some [name], ActionV.helperA (HelperTag.mapDictAsReg fo t_o), [name], false, true, false⟩
      else if fo = t_o then
        ⟨some [name], ActionV.helperA HelperTag.mapDictAsNoOp, [name], false, true, false⟩
      else
        ⟨some [name], ActionV.vnone, [name], false, false, false⟩
  | _, _ => ⟨some [name], ActionV.vnone, [name], false, false, false⟩

/-- The class-body inputs to `MappingMeta.__new__`: the attribute dict of
the class being defined, split into the pieces the metaclass reads. -/
structure MappingDecl : Type where
  from_obj : Option String
  from_resource : Option String
  to_obj : Option String
  to_resource : Option String
  exclude_fields : List String
  mappings : List RawMapping
  attrsDict : List (String × ActionV)
  customDecls : List RawMapping

/-- `attrs.setdefault('from_obj', attrs.get('from_resource'))` followed by
the `None` check (lines 149-154). -/
def effName (primary fallback : Option String) (msg : String) : Except PyErr String :=
  match primary.orElse (fun _ => fallback) with
  | some t => Except.ok t
  | none => Except.error (PyErr.mappingSetupError msg)

/-- Lines 162-265 of `MappingMeta.__new__`, from field resolution through
the custom-mapping pass: resolve both field maps, seed the unmapped working
set from the *source* field names minus `exclude_fields`, check parent
compatibility and copy parent rules, then compile the declared and custom
rules in order, each appended through `addRule`.  Returns both resolved
field maps, the rules compiled so far, and the remaining unmapped set.
The resolver table is modelled from the spec
(`registration.get_field_resolver` is not among the provided sources). -/
def compileRules (issub : String → String → Bool)
    (resolvers : List (String × FieldMaps)) (parents : List MappingCls)
    (d : MappingDecl) (from_obj to_obj : String) :
    Except PyErr (List (String × FieldDesc) × List (String × FieldDesc) ×
                  List CompiledRule × List String) := do
  let fm ←
    match resolvers.lookup from_obj with
    | some r => Except.ok r
    | none => Except.error (PyErr.mappingSetupError msgFromNoResolver)
  let tm ←
    match resolvers.lookup to_obj with
    | some r => Except.ok r
    | none => Except.error (PyErr.mappingSetupError msgToNoResolver)
  let from_fields := fm.fromFields
  let to_fields := tm.toFields
  let from_names := from_fields.map Prod.fst
  let to_names := to_fields.map Prod.fst
  let unmapped0 := from_names.filter (fun n => !d.exclude_fields.contains n)
  let acc1 ← parents.foldlM (fun (acc : List CompiledRule × List String) p => do
      if !issub from_obj p.from_obj then
        Except.error (PyErr.mappingSetupError msgParentFrom)
      else if !issub to_obj p.to_obj then
        Except.error (PyErr.mappingSetupError msgParentTo)
      else
        Except.ok (p.rules.foldl addRule acc)) ([], unmapped0)
  let acc2 ← d.mappings.foldlM (fun acc m => do
      let r ← attr_mapping_to_mapping_rule d.attrsDict from_names to_names m
      Except.ok (addRule acc r)) acc1
  let acc3 ← d.customDecls.foldlM (fun acc m => do
      let r ← attr_mapping_to_mapping_rule d.attrsDict from_names to_names m
      Except.ok (addRule acc r)) acc2
  Except.ok (from_fields, to_fields, acc3.1, acc3.2)

/-- `MappingMeta.__new__` (lines 134-278): determine the type pair, return
the registered class unchanged if the pair is already registered, otherwise
compile the rule list, append an auto-generated rule for every remaining
unmapped source field that also exists on the destination, register the new
class, and add it to each parent's `_subs` dispatch table. -/
def compileMapping (issub : String → String → Bool)
    (resolvers : List (String × FieldMaps)) (reg : Registry)
    (parents : List MappingCls) (d : MappingDecl) :
    Except PyErr (MappingCls × Registry) := do
  let from_obj ← effName d.from_obj d.from_resource msgFromObjUndefined
  let to_obj ← effName d.to_obj d.to_resource msgToObjUndefined
  match regGet reg from_obj to_obj with
  | some existing => Except.ok (existing, reg)
  | none => do
      let (from_fields, to_fields, pre, unmapped) ←
        compileRules issub resolvers parents d from_obj to_obj
      let to_names := to_fields.map Prod.fst
      let autoRules := (unmapped.filter (fun f => to_names.contains f)).map
        (_generate_auto_mapping reg from_fields to_fields)
      let methods := d.attrsDict.filterMap (fun e =>
        match e.2 with
        | ActionV.vfn c => some (e.1, c)
        | _ => none)
      let cls : MappingCls := MappingCls.mk from_obj to_obj (pre ++ autoRules) methods []
      let reg1 := regRegister reg from_obj to_obj cls
      let reg2 := parents.foldl (fun r p => regAddSub r p.from_obj p.to_obj from_obj cls) reg1
      Except.ok (cls, reg2)

/-! ## Auxiliary predicates and concrete instances used by the theorems -/

/-- Is this Python value a `list` or `tuple` (the guard of `force_tuple`)? -/
def isListOrTuple : PyVal → Bool
  | PyVal.pyList _ => true
  | PyVal.pyTuple _ => true
  | _ => false

/-- Did the computation raise a `MappingExecutionError`? -/
def isExecError {α : Type} : Except PyErr α → Bool
  | Except.error (PyErr.mappingExecutionError _) => true
  | _ => false

/-- An action of no parameters returning a once-iterable lazy sequence of
three items (a generator). -/
def gen3Action : PyCallable :=
  ⟨0, fun _ _ => Except.ok (PyVal.pyIter [PyVal.pyInt 1, PyVal.pyInt 2, PyVal.pyInt 3])⟩

/-- A `to_list` assignment rule whose action produces the generator. -/
def genRule : CompiledRule := ⟨none, ActionV.vfn gen3Action, ["xs"], true, false, false⟩

/-- An identity rule from `maybe` with `skip_if_none`. -/
def skipRule : CompiledRule := ⟨some ["maybe"], ActionV.vnone, ["maybe"], false, false, true⟩

/-- An identity rule from `name` with `skip_if_none`. -/
def skipNameRule : CompiledRule := ⟨some ["name"], ActionV.vnone, ["name"], false, false, true⟩

/-- An action of two parameters (used to provoke an arity mismatch when
called with one argument). -/
def twoArgAction : PyCallable := ⟨2, fun _ _ => Except.ok PyVal.pyNone⟩

/-- A rule with a single source field whose action wants two arguments. -/
def arityRule : CompiledRule := ⟨some ["name"], ActionV.vfn twoArgAction, ["x"], false, false, false⟩

/-- An action returning a pair (tuple of two values). -/
def pairAction : PyCallable :=
  ⟨0, fun _ _ => Except.ok (PyVal.pyTuple [PyVal.pyInt 1, PyVal.pyInt 2])⟩

/-- An assignment rule producing two values for a single destination field. -/
def pairRule : CompiledRule := ⟨none, ActionV.vfn pairAction, ["x"], false, false, false⟩

/-- An action returning a Python *list* of two items. -/
def listAction : PyCallable :=
  ⟨0, fun _ _ => Except.ok (PyVal.pyList [PyVal.pyInt 1, PyVal.pyInt 2])⟩

/-- An assignment rule (no `to_list`) whose action returns a list. -/
def listRule : CompiledRule := ⟨none, ActionV.vfn listAction, ["x"], false, false, false⟩

/-- An action returning the plain integer `5`. -/
def intAction : PyCallable := ⟨0, fun _ _ => Except.ok (PyVal.pyInt 5)⟩

/-- An assignment rule whose action returns a plain integer. -/
def intRule : CompiledRule := ⟨none, ActionV.vfn intAction, ["x"], false, false, false⟩

/-- Rules writing constants to the shared destination field `x`, to observe
last-applied-wins overwriting. -/
def constRule (n : Int) : CompiledRule :=
  ⟨none, ActionV.vfn ⟨0, fun _ _ => Except.ok (PyVal.pyInt n)⟩, ["x"], false, false, false⟩

/-- A mapping class holding the demonstration rules (source type `S`,
destination type `D`). -/
def demoCls : MappingCls :=
  MappingCls.mk "S" "D" [genRule, skipRule, skipNameRule] [] []

/-- A mapping class whose two rules write the same destination field. -/
def overwriteCls : MappingCls := MappingCls.mk "S" "D" [constRule 1, constRule 2] [] []

/-- A source instance with a `None`-valued and a string-valued attribute. -/
def demoSrc : PyObj := ⟨"S", [("name", PyVal.pyStr "rex"), ("maybe", PyVal.pyNone)]⟩

/-- The subclass relation of the Animal/Dog example (`issubclass`, hence
reflexive). -/
def zooIssub (c p : String) : Bool :=
  c = p || (c = "Dog" && p = "Animal") || (c = "DogDto" && p = "AnimalDto")

/-- Field resolvers for the Animal/Dog example: every type exposes the
single plain field `name`. -/
def zooResolvers : List (String × FieldMaps) :=
  [("Animal", ⟨[("name", FieldDesc.plain)], [("name", FieldDesc.plain)]⟩),
   ("AnimalDto", ⟨[("name", FieldDesc.plain)], [("name", FieldDesc.plain)]⟩),
   ("Dog", ⟨[("name", FieldDesc.plain)], [("name", FieldDesc.plain)]⟩),
   ("DogDto", ⟨[("name", FieldDesc.plain)], [("name", FieldDesc.plain)]⟩)]

/-- The base mapping declaration `Animal -> AnimalDto` (no explicit rules). -/
def animalDecl : MappingDecl := ⟨some "Animal", none, some "AnimalDto", none, [], [], [], []⟩

/-- The derived mapping declaration `Dog -> DogDto`. -/
def dogDecl : MappingDecl := ⟨some "Dog", none, some "DogDto", none, [], [], [], []⟩

/-- Compiling the base mapping into an empty registry. -/
def animalCompiled : MappingCls × Registry :=
  (compileMapping zooIssub zooResolvers [] [] animalDecl).toOption.getD
    (default, ([] : Registry))

/-- Compiling the derived mapping, inheriting from the base mapping. -/
def dogCompiled : MappingCls × Registry :=
  (compileMapping zooIssub zooResolvers animalCompiled.2 [animalCompiled.1] dogDecl).toOption.getD
    (default, ([] : Registry))

/-- The registry after both compilations. -/
def zooReg : Registry := dogCompiled.2

/-- The base mapping class as held by the registry after the derived
mapping registered itself into the base's `_subs` table. -/
def animalBase : MappingCls := (regGet zooReg "Animal" "AnimalDto").getD default

/-- The derived mapping class. -/
def dogCls : MappingCls := dogCompiled.1

/-- A `Dog` instance. -/
def rex : PyObj := ⟨"Dog", [("name", PyVal.pyStr "Rex")]⟩

/-- A `Cat` instance — a type with no registered sub-mapping. -/
def felix : PyObj := ⟨"Cat", [("name", PyVal.pyStr "Felix")]⟩

/-- A second declaration for the already-registered pair
`(Animal, AnimalDto)`, with a defective rule list: on a re-definition the
declarations are never even parsed. -/
def animalDeclAgain : MappingDecl :=
  ⟨some "Animal", none, some "AnimalDto", none, [], [RawMapping.badDecl], [], []⟩

/-- An action of no parameters that records the loop index it observes
(`self.loop_idx`) into its result. -/
def obsAction : PyCallable :=
  ⟨0, fun loops _ => Except.ok (match loop_idx loops with
      | some i => PyVal.pyInt i
      | none => PyVal.pyNone)⟩

/-- An assignment rule writing the observed loop index to field `idx`. -/
def obsRule : CompiledRule := ⟨none, ActionV.vfn obsAction, ["idx"], false, false, false⟩

/-- A mapping whose only rule is the custom loop-index observer. -/
def obsCls : MappingCls := MappingCls.mk "S" "D" [obsRule] [] []

/-- A source instance of the observer mapping's source type. -/
def obsSrc : PyObj := ⟨"S", []⟩

/-- The destination instance built for an observed loop index `i`. -/
def leafIdx (i : Int) : OutTree := OutTree.leaf (PyVal.pyObj "D" [("idx", PyVal.pyInt i)])

/-- A nested sequence application: an outer sequence whose elements are an
inner sequence of two instances and an inner sequence of one instance. -/
def nestedSrc : SrcTree :=
  SrcTree.node [SrcTree.node [SrcTree.leaf obsSrc, SrcTree.leaf obsSrc],
                SrcTree.node [SrcTree.leaf obsSrc]]

/-- A flat sequence of five instances. -/
def flat5 : SrcTree := SrcTree.node (List.replicate 5 (SrcTree.leaf obsSrc))

/-- Resolvers for the auto-mapping demonstration: source type `S` with the
single field `a`, destination type `D` with fields `a` and `b`. -/
def autoResolvers : List (String × FieldMaps) :=
  [("S", ⟨[("a", FieldDesc.plain)], [("a", FieldDesc.plain)]⟩),
   ("D", ⟨[("a", FieldDesc.plain), ("b", FieldDesc.plain)],
         [("a", FieldDesc.plain), ("b", FieldDesc.plain)]⟩)]

/-- A declaration `S -> D` with no explicit, custom, or inherited rules. -/
def autoDecl : MappingDecl := ⟨some "S", none, some "D", none, [], [], [], []⟩

/-- The compiled `S -> D` mapping of the auto-mapping demonstration. -/
def autoDemoCls : MappingCls :=
  ((compileMapping (fun _ _ => true) autoResolvers [] [] autoDecl).toOption.map
    Prod.fst).getD default

/-- A declaration whose source type has no registered field resolver. -/
def noResDecl : MappingDecl := ⟨some "Nowhere", none, some "D", none, [], [], [], []⟩

/-- A declared rule mapping to the nonexistent destination field `zzz`. -/
def badDestRule : RawMapping :=
  RawMapping.six (some (FRef.one "a")) ActionV.vnone (FRef.one "zzz") false false false

/-- A declaration of `S -> D` whose only declared rule names a nonexistent
destination field. -/
def badDestDecl : MappingDecl :=
  ⟨some "S", none, some "D", none, [], [badDestRule], [], []⟩

/-- A would-be parent mapping for unrelated types `X -> Y`. -/
def xyCls : MappingCls := MappingCls.mk "X" "Y" [] [] []

/-! ## Theorems -/

@[simp]
theorem exceptBind_ok {ε α β : Type} (a : α) (f : α → Except ε β) :
    (Except.ok a >>= f) = f a := rfl

@[simp]
theorem exceptBind_error {ε α β : Type} (e : ε) (f : α → Except ε β) :
    ((Except.error e : Except ε α) >>= f) = Except.error e := rfl

@[simp]
theorem exceptPure_eq_ok {ε α : Type} (a : α) :
    (pure a : Except ε α) = Except.ok a := rfl

/-- C4: for every rule with `to_list=true` whose action returns an iterable
(in particular a once-restartable lazily-produced sequence), the executor
materialises it into a single list value for the sole destination field,
equal to the materialised sequence in order (and `skip_if_none` cannot drop
it, a list not being `None`). -/
theorem to_list_materializes_iterable
    (cls : MappingCls) (source : PyObj) (loops : List Nat) (rule : CompiledRule)
    (d : String) (v : PyVal) (xs : List PyVal)
    (hl : rule.to_list = true) (hd : rule.map_to = [d])
    (ha : ruleActionValue cls source loops rule = Except.ok v)
    (hi : pyIterElems v = some xs) :
    applyRule cls source loops rule = Except.ok [(d, PyVal.pyList xs)] := by
  unfold applyRule ruleToValues
  rw [ha]
  simp only [exceptBind_ok, hl, hi, if_true]
  simp only [hd]
  cases hs : rule.skip_if_none <;> simp [isNone]

/-- Witness for C4 at a concrete input: a `to_list` rule whose action
yields a generator of three integers produces the ordered three-element
list for destination field `xs`. -/
theorem to_list_materializes_iterable_witness :
    applyRule demoCls demoSrc [] genRule =
      Except.ok [("xs", PyVal.pyList [PyVal.pyInt 1, PyVal.pyInt 2, PyVal.pyInt 3])] :=
  to_list_materializes_iterable demoCls demoSrc [] genRule "xs"
    (PyVal.pyIter [PyVal.pyInt 1, PyVal.pyInt 2, PyVal.pyInt 3])
    [PyVal.pyInt 1, PyVal.pyInt 2, PyVal.pyInt 3] rfl rfl rfl rfl

/-- C5: with `skip_if_none` the executor omits exactly the destination
fields whose produced value is the `None` marker; without it, every
`(field, value)` pair is written; and when several rules target the same
destination field the accumulator keeps the last-applied rule's value. -/
theorem skip_if_none_filters_and_last_rule_wins :
    (∀ (cls : MappingCls) (source : PyObj) (loops : List Nat) (rule : CompiledRule)
       (tv : List PyVal),
       ruleToValues cls source loops rule = Except.ok tv →
       rule.map_to.length = tv.length →
       rule.skip_if_none = true →
       applyRule cls source loops rule =
         Except.ok ((rule.map_to.zip tv).filter (fun p => !isNone p.2))) ∧
    (∀ (cls : MappingCls) (source : PyObj) (loops : List Nat) (rule : CompiledRule)
       (tv : List PyVal),
       ruleToValues cls source loops rule = Except.ok tv →
       rule.map_to.length = tv.length →
       rule.skip_if_none = false →
       applyRule cls source loops rule = Except.ok (rule.map_to.zip tv)) ∧
    (∀ (cls : MappingCls) (source : PyObj) (loops : List Nat)
       (r1 r2 : CompiledRule) (d : String) (v1 v2 : PyVal),
       cls.rules = [r1, r2] →
       applyRule cls source loops r1 = Except.ok [(d, v1)] →
       applyRule cls source loops r2 = Except.ok [(d, v2)] →
       convert cls source loops [] = Except.ok (PyVal.pyObj cls.to_obj [(d, v2)])) := by
  refine ⟨?_, ?_, ?_⟩
  · intro cls source loops rule tv htv hlen hs
    unfold applyRule
    rw [htv]
    simp [hlen, hs]
  · intro cls source loops rule tv htv hlen hs
    unfold applyRule
    rw [htv]
    simp [hlen, hs]
  · intro cls source loops r1 r2 d v1 v2 hr h1 h2
    unfold convert
    rw [hr]
    simp [List.foldlM, h1, h2, dictSet]

/-- Witness for C5: the `skip_if_none` rule reading the `None`-valued
attribute `maybe` contributes nothing; the same rule shape reading the
string-valued `name` contributes its entry; two rules writing field `x`
leave the later rule's value. -/
theorem skip_if_none_filters_and_last_rule_wins_witness :
    applyRule demoCls demoSrc [] skipRule = Except.ok [] ∧
    applyRule demoCls demoSrc [] skipNameRule =
      Except.ok [("name", PyVal.pyStr "rex")] ∧
    convert overwriteCls demoSrc [] [] =
      Except.ok (PyVal.pyObj "D" [("x", PyVal.pyInt 2)]) := by
  refine ⟨?_, ?_, ?_⟩
  · have h := skip_if_none_filters_and_last_rule_wins.1 demoCls demoSrc [] skipRule
      [PyVal.pyNone] rfl rfl rfl
    simpa [isNone] using h
  · have h := skip_if_none_filters_and_last_rule_wins.1 demoCls demoSrc [] skipNameRule
      [PyVal.pyStr "rex"] rfl rfl rfl
    simpa [isNone] using h
  · exact skip_if_none_filters_and_last_rule_wins.2.2 overwriteCls demoSrc []
      (constRule 1) (constRule 2) "x" (PyVal.pyInt 1) (PyVal.pyInt 2) rfl rfl rfl

/-- C6: an action invocation whose argument count mismatches the callable's
arity raises `TypeError`, which `_apply_rule` catches and re-raises as a
`MappingExecutionError` whose message names the offending rule
(`execRuleMsg` appends `" applying rule "` and the rule); and a produced
value count different from the declared destination field count also fails
with a `MappingExecutionError` naming the rule (`countErrMsg`). -/
theorem execution_errors_are_mapping_execution_errors :
    (∀ (cls : MappingCls) (source : PyObj) (loops : List Nat) (rule : CompiledRule)
       (c : PyCallable) (fv : List PyVal),
       rule.action = ActionV.vfn c →
       ruleFromValues source rule = Except.ok fv →
       (if rule.bind then selfVal cls :: fv else fv).length ≠ c.arity →
       applyRule cls source loops rule = Except.error (PyErr.mappingExecutionError
         (execRuleMsg
           (arityErrMsg c.arity (if rule.bind then selfVal cls :: fv else fv).length)
           rule))) ∧
    (∀ (cls : MappingCls) (source : PyObj) (loops : List Nat) (rule : CompiledRule)
       (tv : List PyVal),
       ruleToValues cls source loops rule = Except.ok tv →
       rule.map_to.length ≠ tv.length →
       applyRule cls source loops rule =
         Except.error (PyErr.mappingExecutionError (countErrMsg rule tv.length))) := by
  constructor
  · intro cls source loops rule c fv hact hfv hne
    unfold applyRule ruleToValues ruleActionValue
    rw [hfv]
    simp only [exceptBind_ok, hact]
    simp [callPy, if_neg hne, execWrap]
  · intro cls source loops rule tv htv hne
    unfold applyRule
    rw [htv]
    simp [if_neg hne]

/-- Witness for C6: calling a two-parameter action with the single source
value raises the wrapped arity error; an action producing a pair for a
single declared destination field raises the wrapped count error. -/
theorem execution_errors_are_mapping_execution_errors_witness :
    applyRule demoCls demoSrc [] arityRule =
      Except.error (PyErr.mappingExecutionError (execRuleMsg (arityErrMsg 2 1) arityRule)) ∧
    applyRule demoCls demoSrc [] pairRule =
      Except.error (PyErr.mappingExecutionError (countErrMsg pairRule 2)) := by
  constructor
  · exact execution_errors_are_mapping_execution_errors.1 demoCls demoSrc [] arityRule
      twoArgAction [PyVal.pyStr "rex"] rfl rfl (by decide)
  · exact execution_errors_are_mapping_execution_errors.2 demoCls demoSrc [] pairRule
      [PyVal.pyInt 1, PyVal.pyInt 2] rfl (by decide)

/-- Counterexample to C9 as stated: `force_tuple` leaves a *list* result
unchanged (it only wraps values that are neither list nor tuple), so an
action returning a two-element list for a single declared destination field
is *not* coerced into a one-element tuple — the executor instead fails the
count check with a `MappingExecutionError`, where the claim predicts a
successful single-field binding of the list. -/
theorem force_tuple_list_result_not_wrapped :
    force_tuple (PyVal.pyList [PyVal.pyInt 1, PyVal.pyInt 2]) =
      PyVal.pyList [PyVal.pyInt 1, PyVal.pyInt 2] ∧
    isExecError (applyRule demoCls demoSrc [] listRule) = true ∧
    applyRule demoCls demoSrc [] listRule ≠
      Except.ok [("x", PyVal.pyList [PyVal.pyInt 1, PyVal.pyInt 2])] :=
  ⟨rfl, rfl, fun h => nomatch h⟩

/-- C9 as amended: for every rule without `to_list` whose action produces a
single result that is neither a list nor a tuple, the executor coerces that
result into a one-element tuple before checking it against the declared
destination field count (so a single declared field receives it directly). -/
theorem force_tuple_coerces_nonsequence
    (cls : MappingCls) (source : PyObj) (loops : List Nat) (rule : CompiledRule)
    (d : String) (v : PyVal)
    (hl : rule.to_list = false) (hd : rule.map_to = [d])
    (hs : rule.skip_if_none = false)
    (ha : ruleActionValue cls source loops rule = Except.ok v)
    (hv : isListOrTuple v = false) :
    force_tuple v = PyVal.pyTuple [v] ∧
    ruleToValues cls source loops rule = Except.ok [v] ∧
    applyRule cls source loops rule = Except.ok [(d, v)] := by
  have hft : force_tuple v = PyVal.pyTuple [v] := by
    cases v <;> simp_all [isListOrTuple, force_tuple]
  have htv : ruleToValues cls source loops rule = Except.ok [v] := by
    unfold ruleToValues
    rw [ha]
    simp [hl, hft, pyLenSeq]
  refine ⟨hft, htv, ?_⟩
  unfold applyRule
  rw [htv]
  simp [hd, hs]

/-- Witness for C9 as amended: an action returning the integer `5` for the
single destination field `x` yields the binding `x = 5`. -/
theorem force_tuple_coerces_nonsequence_witness :
    force_tuple (PyVal.pyInt 5) = PyVal.pyTuple [PyVal.pyInt 5] ∧
    ruleToValues demoCls demoSrc [] intRule = Except.ok [PyVal.pyInt 5] ∧
    applyRule demoCls demoSrc [] intRule = Except.ok [("x", PyVal.pyInt 5)] :=
  force_tuple_coerces_nonsequence demoCls demoSrc [] intRule "x" (PyVal.pyInt 5)
    rfl rfl rfl rfl rfl

/-- C3: when `apply` receives a single source instance whose exact type
differs from the mapping's declared source type, it delegates entirely to
the sub-mapping registered in `_subs` for that exact type when one exists
(the sub-mapping's own `convert` runs on the instance), and raises a
`TypeError` when no sub-mapping is registered for that type. -/
theorem apply_dispatches_to_sub_mapping
    (cls : MappingCls) (source : PyObj) (loops : List Nat)
    (hne : source.typeName ≠ cls.from_obj) :
    (∀ sub : MappingCls, cls.subs.lookup source.typeName = some sub →
       applyLeaf cls source loops = convert sub source loops []) ∧
    (cls.subs.lookup source.typeName = none →
       applyLeaf cls source loops =
         Except.error (PyErr.typeError (msgNotInstance cls))) := by
  constructor
  · intro sub hsub
    unfold applyLeaf
    simp [if_neg hne, hsub]
  · intro hnone
    unfold applyLeaf
    simp [if_neg hne, hnone]

/-- Witness for C3, on mappings built by `compileMapping` itself: after
compiling `Animal -> AnimalDto` and then `Dog -> DogDto` inheriting from
it, applying the base mapping to a `Dog` instance delegates to the derived
mapping (and the derived mapping builds a `DogDto`), while applying it to a
`Cat` instance raises `TypeError`. -/
theorem apply_dispatches_to_sub_mapping_witness :
    applyLeaf animalBase rex [] = convert dogCls rex [] [] ∧
    convert dogCls rex [] [] =
      Except.ok (PyVal.pyObj "DogDto" [("name", PyVal.pyStr "Rex")]) ∧
    applyLeaf animalBase felix [] =
      Except.error (PyErr.typeError (msgNotInstance animalBase)) :=
  ⟨(apply_dispatches_to_sub_mapping animalBase rex [] (by decide)).1 dogCls rfl,
   rfl,
   (apply_dispatches_to_sub_mapping animalBase felix [] (by decide)).2 rfl⟩

/-- C2: defining a mapping a second time for an already-registered
`(source type, destination type)` pair returns the registered compiled
mapping definition itself and leaves the registry unchanged; the second
declaration set (`parents`, rules, custom actions) is never inspected. -/
theorem mapping_registry_idempotent
    (issub : String → String → Bool) (resolvers : List (String × FieldMaps))
    (reg : Registry) (parents : List MappingCls) (d : MappingDecl)
    (f t : String) (cls : MappingCls)
    (hf : effName d.from_obj d.from_resource msgFromObjUndefined = Except.ok f)
    (ht : effName d.to_obj d.to_resource msgToObjUndefined = Except.ok t)
    (hreg : regGet reg f t = some cls) :
    compileMapping issub resolvers reg parents d = Except.ok (cls, reg) := by
  unfold compileMapping
  rw [hf]
  simp only [exceptBind_ok]
  rw [ht]
  simp [hreg]

/-- Witness for C2: re-declaring `Animal -> AnimalDto` — even with a rule
list that could never compile (`badDecl`) — returns the registered class
and the unchanged registry, proving the second declarations are ignored. -/
theorem mapping_registry_idempotent_witness :
    compileMapping zooIssub zooResolvers zooReg [] animalDeclAgain =
      Except.ok (animalBase, zooReg) :=
  mapping_registry_idempotent zooIssub zooResolvers zooReg [] animalDeclAgain
    "Animal" "AnimalDto" animalBase rfl rfl rfl

/-- C7: every setup-time defect in a mapping declaration fails with a
`MappingSetupError` during compilation (`MappingMeta.__new__` /
`attr_mapping_to_mapping_rule`), so execution never sees it — a failed
compilation produces no mapping class at all.  The conjuncts cover, in
order: an unresolvable field resolver; a declared rule whose normalisation
error aborts the whole compilation; an unknown source field; an unknown
destination field; a `to_list` rule with more than one destination field; a
named custom action that is missing; a named custom action that is not
callable; an assignment rule (no source fields) with a `None` action; a
parent whose `from_obj` is not a supertype; and a parent whose `to_obj` is
not a supertype. -/
theorem setup_defects_fail_at_compile_time :
    (∀ (issub : String → String → Bool) (resolvers : List (String × FieldMaps))
       (reg : Registry) (parents : List MappingCls) (d : MappingDecl) (f t : String),
       effName d.from_obj d.from_resource msgFromObjUndefined = Except.ok f →
       effName d.to_obj d.to_resource msgToObjUndefined = Except.ok t →
       regGet reg f t = none →
       resolvers.lookup f = none →
       compileMapping issub resolvers reg parents d =
         Except.error (PyErr.mappingSetupError msgFromNoResolver)) ∧
    (∀ (issub : String → String → Bool) (resolvers : List (String × FieldMaps))
       (reg : Registry) (d : MappingDecl) (f t : String) (fm tm : FieldMaps)
       (m : RawMapping) (e : PyErr),
       effName d.from_obj d.from_resource msgFromObjUndefined = Except.ok f →
       effName d.to_obj d.to_resource msgToObjUndefined = Except.ok t →
       regGet reg f t = none →
       resolvers.lookup f = some fm →
       resolvers.lookup t = some tm →
       d.mappings = [m] →
       attr_mapping_to_mapping_rule d.attrsDict (fm.fromFields.map Prod.fst)
         (tm.toFields.map Prod.fst) m = Except.error e →
       compileMapping issub resolvers reg [] d = Except.error e) ∧
    (∀ (attrsDict : List (String × ActionV)) (from_names to_names : List String)
       (fr : FRef) (act : ActionV) (toRef : FRef) (tl bd sk : Bool) (f : String),
       (forceTupleRef fr).find? (fun x => !from_names.contains x) = some f →
       attr_mapping_to_mapping_rule attrsDict from_names to_names
         (RawMapping.six (some fr) act toRef tl bd sk) =
         Except.error (PyErr.mappingSetupError (msgFieldNotOnFrom f))) ∧
    (∀ (attrsDict : List (String × ActionV)) (from_names to_names : List String)
       (fr : FRef) (c : PyCallable) (toRef : FRef) (bd sk : Bool) (f : String),
       (forceTupleRef fr).find? (fun x => !from_names.contains x) = none →
       (forceTupleRef toRef).find? (fun x => !to_names.contains x) = some f →
       attr_mapping_to_mapping_rule attrsDict from_names to_names
         (RawMapping.six (some fr) (ActionV.vfn c) toRef false bd sk) =
         Except.error (PyErr.mappingSetupError (msgFieldNotOnTo f))) ∧
    (∀ (attrsDict : List (String × ActionV)) (from_names to_names : List String)
       (fr : FRef) (c : PyCallable) (toRef : FRef) (bd sk : Bool),
       (forceTupleRef fr).find? (fun x => !from_names.contains x) = none →
       (forceTupleRef toRef).length ≠ 1 →
       attr_mapping_to_mapping_rule attrsDict from_names to_names
         (RawMapping.six (some fr) (ActionV.vfn c) toRef true bd sk) =
         Except.error (PyErr.mappingSetupError msgToListSingleTarget)) ∧
    (∀ (attrsDict : List (String × ActionV)) (from_names to_names : List String)
       (fr : FRef) (a : String) (toRef : FRef) (tl bd sk : Bool),
       (forceTupleRef fr).find? (fun x => !from_names.contains x) = none →
       attrsDict.lookup a = none →
       attr_mapping_to_mapping_rule attrsDict from_names to_names
         (RawMapping.six (some fr) (ActionV.vstr a) toRef tl bd sk) =
         Except.error (PyErr.mappingSetupError (msgActionNotDefined a))) ∧
    (∀ (attrsDict : List (String × ActionV)) (from_names to_names : List String)
       (fr : FRef) (a : String) (v : ActionV) (toRef : FRef) (tl bd sk : Bool),
       (forceTupleRef fr).find? (fun x => !from_names.contains x) = none →
       attrsDict.lookup a = some v →
       callableAV v = false →
       attr_mapping_to_mapping_rule attrsDict from_names to_names
         (RawMapping.six (some fr) (ActionV.vstr a) toRef tl bd sk) =
         Except.error (PyErr.mappingSetupError (msgActionNamedNotCallable a))) ∧
    (∀ (attrsDict : List (String × ActionV)) (from_names to_names : List String)
       (toRef : FRef) (tl bd sk : Bool),
       attr_mapping_to_mapping_rule attrsDict from_names to_names
         (RawMapping.six none ActionV.vnone toRef tl bd sk) =
         Except.error (PyErr.mappingSetupError msgNoActionSupplied)) ∧
    (∀ (issub : String → String → Bool) (resolvers : List (String × FieldMaps))
       (reg : Registry) (p : MappingCls) (ps : List MappingCls) (d : MappingDecl)
       (f t : String) (fm tm : FieldMaps),
       effName d.from_obj d.from_resource msgFromObjUndefined = Except.ok f →
       effName d.to_obj d.to_resource msgToObjUndefined = Except.ok t →
       regGet reg f t = none →
       resolvers.lookup f = some fm →
       resolvers.lookup t = some tm →
       issub f p.from_obj = false →
       compileMapping issub resolvers reg (p :: ps) d =
         Except.error (PyErr.mappingSetupError msgParentFrom)) ∧
    (∀ (issub : String → String → Bool) (resolvers : List (String × FieldMaps))
       (reg : Registry) (p : MappingCls) (ps : List MappingCls) (d : MappingDecl)
       (f t : String) (fm tm : FieldMaps),
       effName d.from_obj d.from_resource msgFromObjUndefined = Except.ok f →
       effName d.to_obj d.to_resource msgToObjUndefined = Except.ok t →
       regGet reg f t = none →
       resolvers.lookup f = some fm →
       resolvers.lookup t = some tm →
       issub f p.from_obj = true →
       issub t p.to_obj = false →
       compileMapping issub resolvers reg (p :: ps) d =
         Except.error (PyErr.mappingSetupError msgParentTo)) := by
  refine ⟨?_, ?_, ?_, ?_, ?_, ?_, ?_, ?_, ?_, ?_⟩
  · intro issub resolvers reg parents d f t hf ht hreg hres
    unfold compileMapping
    rw [hf]
    simp only [exceptBind_ok]
    rw [ht]
    simp only [exceptBind_ok, hreg]
    unfold compileRules
    simp [hres]
  · intro issub resolvers reg d f t fm tm m e hf ht hreg hresf hrest hm hrule
    unfold compileMapping
    rw [hf]
    simp only [exceptBind_ok]
    rw [ht]
    simp only [exceptBind_ok, hreg]
    unfold compileRules
    simp [hresf, hrest, hm, List.foldlM, hrule]
  · intro attrsDict from_names to_names fr act toRef tl bd sk f hfind
    unfold attr_mapping_to_mapping_rule
    simp at hfind
    simp [hfind]
  · intro attrsDict from_names to_names fr c toRef bd sk f hfrom hto
    unfold attr_mapping_to_mapping_rule
    have hfr : List.find? (fun x => !decide (x ∈ from_names)) (forceTupleRef fr) = none := by
      simpa using hfrom
    simp at hto
    simp [hfr, hto]
  · intro attrsDict from_names to_names fr c toRef bd sk hfrom hlen
    unfold attr_mapping_to_mapping_rule
    have hfr : List.find? (fun x => !decide (x ∈ from_names)) (forceTupleRef fr) = none := by
      simpa using hfrom
    simp [hfr, hlen]
  · intro attrsDict from_names to_names fr a toRef tl bd sk hfrom hlook
    unfold attr_mapping_to_mapping_rule
    have hfr : List.find? (fun x => !decide (x ∈ from_names)) (forceTupleRef fr) = none := by
      simpa using hfrom
    simp [hfr, hlook]
  · intro attrsDict from_names to_names fr a v toRef tl bd sk hfrom hlook hcall
    unfold attr_mapping_to_mapping_rule
    have hfr : List.find? (fun x => !decide (x ∈ from_names)) (forceTupleRef fr) = none := by
      simpa using hfrom
    simp [hfr, hlook, hcall]
  · intro attrsDict from_names to_names toRef tl bd sk
    unfold attr_mapping_to_mapping_rule
    simp
  · intro issub resolvers reg p ps d f t fm tm hf ht hreg hresf hrest hsub
    unfold compileMapping
    rw [hf]
    simp only [exceptBind_ok]
    rw [ht]
    simp only [exceptBind_ok, hreg]
    unfold compileRules
    simp [hresf, hrest, List.foldlM, hsub]
  · intro issub resolvers reg p ps d f t fm tm hf ht hreg hresf hrest hsubf hsubt
    unfold compileMapping
    rw [hf]
    simp only [exceptBind_ok]
    rw [ht]
    simp only [exceptBind_ok, hreg]
    unfold compileRules
    simp [hresf, hrest, List.foldlM, hsubf, hsubt]

/-- Witness for C7: a concrete instance of every setup-time defect, each
failing with the corresponding `MappingSetupError` at compile time. -/
theorem setup_defects_fail_at_compile_time_witness :
    compileMapping (fun _ _ => true) autoResolvers [] [] noResDecl =
      Except.error (PyErr.mappingSetupError msgFromNoResolver) ∧
    compileMapping (fun _ _ => true) autoResolvers [] [] badDestDecl =
      Except.error (PyErr.mappingSetupError (msgFieldNotOnTo "zzz")) ∧
    attr_mapping_to_mapping_rule [] ["name"] ["title"]
      (RawMapping.six (some (FRef.one "missing")) ActionV.vnone (FRef.one "title")
        false false false) =
      Except.error (PyErr.mappingSetupError (msgFieldNotOnFrom "missing")) ∧
    attr_mapping_to_mapping_rule [] ["name"] ["title"]
      (RawMapping.six (some (FRef.one "name")) (ActionV.vfn intAction) (FRef.one "nope")
        false false false) =
      Except.error (PyErr.mappingSetupError (msgFieldNotOnTo "nope")) ∧
    attr_mapping_to_mapping_rule [] ["name"] ["title"]
      (RawMapping.six (some (FRef.one "name")) (ActionV.vfn intAction)
        (FRef.many ["t1", "t2"]) true false false) =
      Except.error (PyErr.mappingSetupError msgToListSingleTarget) ∧
    attr_mapping_to_mapping_rule [] ["name"] ["title"]
      (RawMapping.six (some (FRef.one "name")) (ActionV.vstr "ghost") (FRef.one "title")
        false false false) =
      Except.error (PyErr.mappingSetupError (msgActionNotDefined "ghost")) ∧
    attr_mapping_to_mapping_rule [("bad", ActionV.vnotCallable)] ["name"] ["title"]
      (RawMapping.six (some (FRef.one "name")) (ActionV.vstr "bad") (FRef.one "title")
        false false false) =
      Except.error (PyErr.mappingSetupError (msgActionNamedNotCallable "bad")) ∧
    attr_mapping_to_mapping_rule [] ["name"] ["title"]
      (RawMapping.six none ActionV.vnone (FRef.one "title") false false false) =
      Except.error (PyErr.mappingSetupError msgNoActionSupplied) ∧
    compileMapping (fun _ _ => false) autoResolvers [] [xyCls] autoDecl =
      Except.error (PyErr.mappingSetupError msgParentFrom) ∧
    compileMapping (fun _ p => p == "X") autoResolvers [] [xyCls] autoDecl =
      Except.error (PyErr.mappingSetupError msgParentTo) := by
  refine ⟨?_, ?_, ?_, ?_, ?_, ?_, ?_, ?_, ?_, ?_⟩
  · exact setup_defects_fail_at_compile_time.1 (fun _ _ => true) autoResolvers [] []
      noResDecl "Nowhere" "D" rfl rfl rfl rfl
  · exact setup_defects_fail_at_compile_time.2.1 (fun _ _ => true) autoResolvers []
      badDestDecl "S" "D" ⟨[("a", FieldDesc.plain)], [("a", FieldDesc.plain)]⟩
      ⟨[("a", FieldDesc.plain), ("b", FieldDesc.plain)],
       [("a", FieldDesc.plain), ("b", FieldDesc.plain)]⟩
      badDestRule (PyErr.mappingSetupError (msgFieldNotOnTo "zzz"))
      rfl rfl rfl rfl rfl rfl rfl
  · exact setup_defects_fail_at_compile_time.2.2.1 [] ["name"] ["title"]
      (FRef.one "missing") ActionV.vnone (FRef.one "title") false false false
      "missing" rfl
  · exact setup_defects_fail_at_compile_time.2.2.2.1 [] ["name"] ["title"]
      (FRef.one "name") intAction (FRef.one "nope") false false "nope" rfl rfl
  · exact setup_defects_fail_at_compile_time.2.2.2.2.1 [] ["name"] ["title"]
      (FRef.one "name") intAction (FRef.many ["t1", "t2"]) false false rfl (by decide)
  · exact setup_defects_fail_at_compile_time.2.2.2.2.2.1 [] ["name"] ["title"]
      (FRef.one "name") "ghost" (FRef.one "title") false false false rfl rfl
  · exact setup_defects_fail_at_compile_time.2.2.2.2.2.2.1
      [("bad", ActionV.vnotCallable)] ["name"] ["title"]
      (FRef.one "name") "bad" ActionV.vnotCallable (FRef.one "title") false false false
      rfl rfl rfl
  · exact setup_defects_fail_at_compile_time.2.2.2.2.2.2.2.1 [] ["name"] ["title"]
      (FRef.one "title") false false false
  · exact setup_defects_fail_at_compile_time.2.2.2.2.2.2.2.2.1 (fun _ _ => false)
      autoResolvers [] xyCls [] autoDecl "S" "D"
      ⟨[("a", FieldDesc.plain)], [("a", FieldDesc.plain)]⟩
      ⟨[("a", FieldDesc.plain), ("b", FieldDesc.plain)],
       [("a", FieldDesc.plain), ("b", FieldDesc.plain)]⟩
      rfl rfl rfl rfl rfl rfl
  · exact setup_defects_fail_at_compile_time.2.2.2.2.2.2.2.2.2 (fun _ p => p == "X")
      autoResolvers [] xyCls [] autoDecl "S" "D"
      ⟨[("a", FieldDesc.plain)], [("a", FieldDesc.plain)]⟩
      ⟨[("a", FieldDesc.plain), ("b", FieldDesc.plain)],
       [("a", FieldDesc.plain), ("b", FieldDesc.plain)]⟩
      rfl rfl rfl rfl rfl rfl rfl

theorem removeUnmapped_mem (r : CompiledRule) {u : List String} (hu : u.Nodup)
    (x : String) : x ∈ removeUnmapped r u ↔ x ∈ u ∧ r.map_to ≠ [x] := by
  cases hmt : r.map_to with
  | nil => simp [removeUnmapped, hmt]
  | cons y ys =>
    cases ys with
    | nil =>
      simp only [removeUnmapped, hmt]
      rw [hu.mem_erase_iff]
      constructor
      · rintro ⟨hxy, hx⟩
        exact ⟨hx, by simp [hxy.symm]⟩
      · rintro ⟨hx, hne⟩
        refine ⟨fun hxy => hne (by simp [hxy]), hx⟩
    | cons z zs => simp [removeUnmapped, hmt]

theorem removeUnmapped_nodup (r : CompiledRule) {u : List String} (hu : u.Nodup) :
    (removeUnmapped r u).Nodup := by
  unfold removeUnmapped
  split
  · exact hu.erase _
  · exact hu

theorem removeAll_mem (rs : List CompiledRule) :
    ∀ {u : List String}, u.Nodup → ∀ x,
      (x ∈ removeAll rs u ↔ x ∈ u ∧ ∀ r ∈ rs, r.map_to ≠ [x]) := by
  induction rs with
  | nil => intro u _ x; simp [removeAll]
  | cons r rs ih =>
    intro u hu x
    have h1 : removeAll (r :: rs) u = removeAll rs (removeUnmapped r u) := rfl
    rw [h1, ih (removeUnmapped_nodup r hu) x, removeUnmapped_mem r hu x]
    constructor
    · rintro ⟨⟨hx, hr⟩, hrs⟩
      exact ⟨hx, by simpa [hr] using hrs⟩
    · rintro ⟨hx, hall⟩
      have hr := hall r (by simp)
      exact ⟨⟨hx, hr⟩, fun r' hr' => hall r' (by simp [hr'])⟩

theorem foldl_addRule_spec (rs : List CompiledRule) :
    ∀ (acc : List CompiledRule × List String),
      rs.foldl addRule acc = (acc.1 ++ rs, removeAll rs acc.2) := by
  induction rs with
  | nil => intro acc; simp [removeAll]
  | cons r rs ih =>
    intro acc
    have h1 : (r :: rs).foldl addRule acc = rs.foldl addRule (addRule acc r) := rfl
    rw [h1, ih]
    simp [addRule, removeAll, List.foldl_cons]

theorem removeAll_append (a b : List CompiledRule) (u : List String) :
    removeAll (a ++ b) u = removeAll b (removeAll a u) := by
  simp [removeAll, List.foldl_append]

/-- Any `foldlM` phase of `compileRules` that succeeds extends the rule
list by some compiled rules and shrinks the unmapped set through
`removeAll` by exactly those rules. -/
theorem foldlM_attr_spec (conv : RawMapping → Except PyErr CompiledRule) :
    ∀ (ms : List RawMapping) (acc acc' : List CompiledRule × List String),
      ms.foldlM (fun acc m => do
          let r ← conv m
          Except.ok (addRule acc r)) acc = Except.ok acc' →
      ∃ rs : List CompiledRule, acc' = (acc.1 ++ rs, removeAll rs acc.2) := by
  intro ms
  induction ms with
  | nil =>
    intro acc acc' h
    refine ⟨[], ?_⟩
    simp only [List.foldlM_nil] at h
    cases h
    simp [removeAll]
  | cons m ms ih =>
    intro acc acc' h
    rw [List.foldlM_cons] at h
    cases hc : conv m with
    | error e => rw [hc] at h; simp at h
    | ok r =>
      rw [hc] at h
      simp only [exceptBind_ok, exceptPure_eq_ok, exceptBind_ok] at h
      obtain ⟨rs, hrs⟩ := ih (addRule acc r) acc' h
      refine ⟨r :: rs, ?_⟩
      rw [hrs]
      simp [addRule, removeAll, List.foldl_cons]

/-- The parent-copying phase of `compileRules`, when it succeeds, likewise
appends some rules and applies `removeAll`. -/
theorem foldlM_parents_spec (issub : String → String → Bool) (from_obj to_obj : String) :
    ∀ (ps : List MappingCls) (acc acc' : List CompiledRule × List String),
      ps.foldlM (fun (acc : List CompiledRule × List String) p => do
          if !issub from_obj p.from_obj then
            Except.error (PyErr.mappingSetupError msgParentFrom)
          else if !issub to_obj p.to_obj then
            Except.error (PyErr.mappingSetupError msgParentTo)
          else
            Except.ok (p.rules.foldl addRule acc)) acc = Except.ok acc' →
      ∃ rs : List CompiledRule, acc' = (acc.1 ++ rs, removeAll rs acc.2) := by
  intro ps
  induction ps with
  | nil =>
    intro acc acc' h
    refine ⟨[], ?_⟩
    simp only [List.foldlM_nil] at h
    cases h
    simp [removeAll]
  | cons p ps ih =>
    intro acc acc' h
    rw [List.foldlM_cons] at h
    cases hf : issub from_obj p.from_obj with
    | false => rw [hf] at h; simp at h
    | true =>
      rw [hf] at h
      cases ht : issub to_obj p.to_obj with
      | false => rw [ht] at h; simp at h
      | true =>
        rw [ht] at h
        simp only [Bool.not_true, Bool.false_eq_true, if_false, exceptBind_ok] at h
        obtain ⟨rs, hrs⟩ := ih (p.rules.foldl addRule acc) acc' h
        refine ⟨p.rules ++ rs, ?_⟩
        rw [hrs, foldl_addRule_spec]
        simp [removeAll_append]

/-- A successful `compileRules` leaves exactly the source fields (minus the
excluded ones) not claimed by any single-destination compiled rule in the
unmapped working set. -/
theorem compileRules_spec (issub : String → String → Bool)
    (resolvers : List (String × FieldMaps)) (parents : List MappingCls)
    (d : MappingDecl) (from_obj to_obj : String)
    (ff tf : List (String × FieldDesc)) (pre : List CompiledRule) (unm : List String)
    (h : compileRules issub resolvers parents d from_obj to_obj =
      Except.ok (ff, tf, pre, unm)) :
    unm = removeAll pre
      ((ff.map Prod.fst).filter (fun n => !d.exclude_fields.contains n)) := by
  unfold compileRules at h
  cases hfm : resolvers.lookup from_obj with
  | none => rw [hfm] at h; simp at h
  | some fm =>
    rw [hfm] at h
    cases htm : resolvers.lookup to_obj with
    | none => rw [htm] at h; simp at h
    | some tm =>
      rw [htm] at h
      simp only [exceptBind_ok] at h
      cases hp : parents.foldlM (fun (acc : List CompiledRule × List String) p => do
          if !issub from_obj p.from_obj then
            Except.error (PyErr.mappingSetupError msgParentFrom)
          else if !issub to_obj p.to_obj then
            Except.error (PyErr.mappingSetupError msgParentTo)
          else
            Except.ok (p.rules.foldl addRule acc))
          ([], (fm.fromFields.map Prod.fst).filter
            (fun n => !d.exclude_fields.contains n)) with
      | error e => rw [hp] at h; simp at h
      | ok acc1 =>
        rw [hp] at h
        simp only [exceptBind_ok] at h
        cases hd2 : d.mappings.foldlM (fun acc m => do
            let r ← attr_mapping_to_mapping_rule d.attrsDict
              (fm.fromFields.map Prod.fst) (tm.toFields.map Prod.fst) m
            Except.ok (addRule acc r)) acc1 with
        | error e => rw [hd2] at h; simp at h
        | ok acc2 =>
          rw [hd2] at h
          simp only [exceptBind_ok] at h
          cases hd3 : d.customDecls.foldlM (fun acc m => do
              let r ← attr_mapping_to_mapping_rule d.attrsDict
                (fm.fromFields.map Prod.fst) (tm.toFields.map Prod.fst) m
              Except.ok (addRule acc r)) acc2 with
          | error e => rw [hd3] at h; simp at h
          | ok acc3 =>
            rw [hd3] at h
            simp only [exceptBind_ok, exceptPure_eq_ok, Except.ok.injEq,
              Prod.mk.injEq] at h
            obtain ⟨hff, htf, hpre, hunm⟩ := h
            obtain ⟨rs1, h1⟩ := foldlM_parents_spec issub from_obj to_obj parents _ _ hp
            obtain ⟨rs2, h2⟩ := foldlM_attr_spec _ d.mappings _ _ hd2
            obtain ⟨rs3, h3⟩ := foldlM_attr_spec _ d.customDecls _ _ hd3
            rw [← hunm, ← hpre, ← hff, h3, h2, h1]
            simp [removeAll_append, List.append_assoc]

/-- Every auto-generated rule targets exactly the field it was generated
for. -/
theorem generate_auto_mapping_map_to (reg : Registry)
    (ff tf : List (String × FieldDesc)) (n : String) :
    (_generate_auto_mapping reg ff tf n).map_to = [n] := by
  unfold _generate_auto_mapping
  split
  · split
    · rfl
    · split <;> rfl
  · split
    · rfl
    · split <;> rfl
  · rfl

/-- Counterexample to C1 as stated: compiling `S -> D` where `S` has the
single field `a` and `D` has fields `a` and `b`, with no inherited,
explicit, or custom rules, generates only the auto rule for `a`.  The
destination field `b` is claimed by no rule, yet no rule is generated for
it: the auto-mapping generator iterates over the *source* field names
(line 220 seeds `unmapped_fields` from `from_fields`), so a
destination-only field never receives a rule, contradicting "generates a
rule for every destination field not claimed by any ... rule". -/
theorem auto_mapping_skips_dest_only_field :
    autoDemoCls.rules.map CompiledRule.map_to = [["a"]] ∧
    (autoResolvers.lookup "D").map (fun m => m.toFields.map Prod.fst) =
      some ["a", "b"] ∧
    autoDecl.mappings = [] ∧
    autoDecl.customDecls = [] :=
  ⟨rfl, rfl, rfl, rfl⟩

/-- C1 as amended: at mapping-compile time the auto-mapping generator
generates a rule for every destination field that *also appears among the
source fields* (and is not excluded) and is not claimed by any inherited,
explicit, or custom rule, where a rule claims its destination field — by
removal from the `unmapped` working set, in the order inherited rules,
explicit declared rules, custom-action rules — only when it has exactly one
destination field. -/
theorem auto_mapping_covers_unclaimed_shared_fields
    (issub : String → String → Bool) (resolvers : List (String × FieldMaps))
    (reg : Registry) (parents : List MappingCls) (d : MappingDecl)
    (from_obj to_obj : String) (ff tf : List (String × FieldDesc))
    (pre : List CompiledRule) (unm : List String) (dd : String)
    (hf : effName d.from_obj d.from_resource msgFromObjUndefined = Except.ok from_obj)
    (ht : effName d.to_obj d.to_resource msgToObjUndefined = Except.ok to_obj)
    (hreg : regGet reg from_obj to_obj = none)
    (hcr : compileRules issub resolvers parents d from_obj to_obj =
      Except.ok (ff, tf, pre, unm))
    (hnd : (ff.map Prod.fst).Nodup)
    (hfrom : dd ∈ ff.map Prod.fst)
    (hexcl : dd ∉ d.exclude_fields)
    (hto : dd ∈ tf.map Prod.fst)
    (hclaim : ∀ r ∈ pre, r.map_to ≠ [dd]) :
    ∃ (cls : MappingCls) (reg' : Registry),
      compileMapping issub resolvers reg parents d = Except.ok (cls, reg') ∧
      _generate_auto_mapping reg ff tf dd ∈ cls.rules ∧
      (_generate_auto_mapping reg ff tf dd).map_to = [dd] := by
  have hspec := compileRules_spec issub resolvers parents d from_obj to_obj
    ff tf pre unm hcr
  have hndi : ((ff.map Prod.fst).filter
      (fun n => !d.exclude_fields.contains n)).Nodup := hnd.filter _
  have hinit : dd ∈ (ff.map Prod.fst).filter
      (fun n => !d.exclude_fields.contains n) := by
    simp [List.mem_filter, hfrom, hexcl]
  have hunm : dd ∈ unm := by
    rw [hspec]
    exact (removeAll_mem pre hndi dd).mpr ⟨hinit, hclaim⟩
  have hboth : dd ∈ unm.filter (fun f => (tf.map Prod.fst).contains f) := by
    simp [List.mem_filter, hunm, hto]
  have hcm : ∃ (cls : MappingCls) (reg' : Registry),
      compileMapping issub resolvers reg parents d = Except.ok (cls, reg') ∧
      cls.rules = pre ++ (unm.filter (fun f => (tf.map Prod.fst).contains f)).map
        (_generate_auto_mapping reg ff tf) := by
    unfold compileMapping
    rw [hf]
    simp only [exceptBind_ok]
    rw [ht]
    simp only [exceptBind_ok, hreg]
    rw [hcr]
    simp only [exceptBind_ok, exceptPure_eq_ok]
    exact ⟨_, _, rfl, rfl⟩
  obtain ⟨cls, reg', hcm, hrules⟩ := hcm
  refine ⟨cls, reg', hcm, ?_, generate_auto_mapping_map_to reg ff tf dd⟩
  rw [hrules]
  exact List.mem_append_right _
    (List.mem_map_of_mem (_generate_auto_mapping reg ff tf) hboth)

/-- Witness for C1 as amended: in the `S -> D` demonstration the shared
field `a` is unclaimed, and the compiled mapping indeed holds the
auto-generated identity rule for `a`. -/
theorem auto_mapping_covers_unclaimed_shared_fields_witness :
    ∃ (cls : MappingCls) (reg' : Registry),
      compileMapping (fun _ _ => true) autoResolvers [] [] autoDecl =
        Except.ok (cls, reg') ∧
      _generate_auto_mapping []
        [("a", FieldDesc.plain)]
        [("a", FieldDesc.plain), ("b", FieldDesc.plain)] "a" ∈ cls.rules ∧
      (_generate_auto_mapping []
        [("a", FieldDesc.plain)]
        [("a", FieldDesc.plain), ("b", FieldDesc.plain)] "a").map_to = ["a"] :=
  auto_mapping_covers_unclaimed_shared_fields (fun _ _ => true) autoResolvers []
    [] autoDecl "S" "D"
    [("a", FieldDesc.plain)]
    [("a", FieldDesc.plain), ("b", FieldDesc.plain)]
    [] ["a"] "a" rfl rfl rfl rfl (by decide) (by decide) (by decide) (by decide)
    (by intro r hr; cases hr)

/-- Elementwise behaviour of `result_iter` on a flat list of single
instances: starting with the singleton stack `[k]`, element `i` is
converted under the stack `[k + i]` and the loop counter ends at
`k + n`. -/
theorem applyFullList_flat_spec (cls : MappingCls) (f : Nat → PyObj → PyVal)
    (srcs : List PyObj)
    (h : ∀ (i : Nat) (s : PyObj), s ∈ srcs →
      applyLeaf cls s [i] = Except.ok (f i s)) :
    ∀ k : Nat,
      applyFullList cls (srcs.map SrcTree.leaf) [k] =
        (Except.ok (List.zipWith (fun i s => OutTree.leaf (f i s))
          (List.range' k srcs.length) srcs), [k + srcs.length]) := by
  induction srcs with
  | nil => intro k; simp [applyFullList, List.range']
  | cons s ss ih =>
    intro k
    have hs : applyLeaf cls s [k] = Except.ok (f k s) := h k s (by simp)
    have ih' := ih (fun i s' hs' => h i s' (by simp [hs'])) (k + 1)
    simp only [List.map_cons, applyFullList, applyFull, hs, bumpHead, ih',
      List.range'_succ, List.zipWith_cons_cons, List.length_cons]
    have : k + 1 + ss.length = k + (ss.length + 1) := by omega
    rw [this]

/-- C8 as amended: applying a mapping to a flat (non-nested) sequence of
`n` source instances yields exactly `n` destination instances, in input
order, and element `i` is processed under the loop stack `[i]`, whose
`loop_idx` — the index a custom action observes — is exactly `i`, its
zero-based position.  (In *nested* sequence applications the slot read and
incremented is the first-pushed one, not the innermost loop's; see the
counterexample.) -/
theorem flat_sequence_indexed_in_order (cls : MappingCls) (f : Nat → PyObj → PyVal)
    (srcs : List PyObj)
    (h : ∀ (i : Nat) (s : PyObj), s ∈ srcs →
      applyLeaf cls s [i] = Except.ok (f i s)) :
    applyFull cls (SrcTree.node (srcs.map SrcTree.leaf)) [] =
      (Except.ok (OutTree.node (List.zipWith (fun i s => OutTree.leaf (f i s))
        (List.range srcs.length) srcs)), []) ∧
    (List.zipWith (fun i s => OutTree.leaf (f i s))
      (List.range srcs.length) srcs).length = srcs.length ∧
    ∀ i : Nat, loop_idx [i] = some i := by
  refine ⟨?_, ?_, fun i => rfl⟩
  · have hl := applyFullList_flat_spec cls f srcs h 0
    simp only [applyFull, List.nil_append, hl, List.range_eq_range']
    simp
  · simp

/-- Witness for C8 as amended: five instances mapped by a rule whose custom
action records `self.loop_idx` produce, in order, destination objects
recording the indices 0 through 4, and the loop stack is empty again after
full consumption. -/
theorem flat_sequence_indexed_in_order_witness :
    applyFull obsCls flat5 [] =
      (Except.ok (OutTree.node [leafIdx 0, leafIdx 1, leafIdx 2, leafIdx 3, leafIdx 4]),
       []) := by
  have h := (flat_sequence_indexed_in_order obsCls
    (fun i _ => PyVal.pyObj "D" [("idx", PyVal.pyInt i)])
    (List.replicate 5 obsSrc)
    (fun i s hs => by rw [List.eq_of_mem_replicate hs]; rfl)).1
  simpa [flat5, leafIdx, List.replicate] using h

/-- Counterexample to C8 as stated: under a nested sequence application —
the outer sequence holds an inner sequence of two instances and an inner
sequence of one instance — the custom action processing the single element
of the *second* inner loop (zero-based position 0 in its innermost active
loop) observes loop index 3, because `loop_idx` reads `_loop_idx[0]` (the
first-pushed slot) and the inner loops increment that same slot.  The
recorded indices are `[[0, 1], [3]]`, not the claimed innermost positions
`[[0, 1], [0]]`. -/
theorem nested_loop_index_not_innermost :
    applyFull obsCls nestedSrc [] =
      (Except.ok (OutTree.node [OutTree.node [leafIdx 0, leafIdx 1],
        OutTree.node [leafIdx 3]]), []) ∧
    leafIdx 3 ≠ leafIdx 0 := by
  constructor
  · rfl
  · simp [leafIdx]

/-- Counterexample to C10 as stated: `apply` with a caller-supplied *empty*
context dict does not mutate it — `context = context or {}` replaces a
falsy dict with a fresh one, so the key `_loop_idx` is never inserted into
the caller's dict. -/
theorem empty_context_dict_not_mutated :
    (applyTop obsCls (SrcTree.leaf obsSrc) (Ctx.mk none false)).2 =
      Ctx.mk none false ∧
    ((applyTop obsCls (SrcTree.leaf obsSrc) (Ctx.mk none false)).2.loopIdx).isNone
      = true :=
  ⟨rfl, rfl⟩

/-- C10 as amended: every call of `apply` with a caller-supplied *truthy*
(non-empty) context dict mutates it so that the key `_loop_idx` is present
when the call completes; if the key was absent it is inserted with an
initially empty list, which the application then threads (a fully consumed
flat sequence application leaves it `[]` again). -/
theorem truthy_context_dict_keeps_loop_idx_key
    (cls : MappingCls) (src : SrcTree) (caller : Ctx)
    (h : ctxTruthy caller = true) :
    ((applyTop cls src caller).2.loopIdx).isSome = true ∧
    (caller.loopIdx = none →
      (applyTop cls src caller).2.loopIdx = some (applyFull cls src []).2) := by
  unfold applyTop
  simp only [h, if_true]
  constructor
  · rfl
  · intro hn
    simp [hn]

/-- Witness for C10 as amended: a non-empty caller dict without the key
gains `_loop_idx`, and after full consumption of the flat five-element
sequence the key still maps to the (emptied) list. -/
theorem truthy_context_dict_keeps_loop_idx_key_witness :
    ((applyTop obsCls flat5 (Ctx.mk none true)).2.loopIdx).isSome = true ∧
    (applyTop obsCls flat5 (Ctx.mk none true)).2.loopIdx = some [] := by
  have h := truthy_context_dict_keeps_loop_idx_key obsCls flat5 (Ctx.mk none true) rfl
  exact ⟨h.1, (h.2 rfl).trans rfl⟩

end OdinMapping
